import Mathlib

/-!
Verification of `src/storage/secondary/RedisStorage.cpp` (ccache's Redis
secondary-storage backend).

The client is embedded as a pure state machine.  All interaction with the
hiredis library (connection attempts, reconnects and command replies) is
modelled by explicit environment values passed to each call, and every
I/O action the code performs is recorded in an explicit trace, so that
"no new I/O is issued" is a statement about the trace being empty.
Machine integers (`int`, `long long`) are modelled as `Int`; byte strings
(`std::string` used binary-safely) as `List Nat`.
-/

namespace CcacheRedis

/-- Reply types of the wire protocol (hiredis `REDIS_REPLY_*`); `other`
stands for every further type the code does not treat specially. -/
inductive ReplyType where
  | string
  | error
  | integer
  | nil
  | status
  | other
  deriving DecidableEq

/-- A hiredis `redisReply`: a type tag, the byte payload `str`/`len` of a
string or error reply, and the `integer` field of an integer reply. -/
structure RedisReply where
  type : ReplyType
  str : List Nat
  integer : Int
  deriving DecidableEq

/-- The part of a hiredis `redisContext` the code reads: the `err` field
(0 means no error; nonzero values are hiredis error codes). -/
structure RedisContext where
  err : Int
  deriving DecidableEq

/-- The fields of the endpoint `Url` the code reads. -/
structure Url where
  scheme : String
  host : String
  port : String
  path : String
  deriving DecidableEq

/-- A content digest; the code only uses its canonical textual form
`Digest::to_string()`. -/
structure Digest where
  to_string : String
  deriving DecidableEq

/-- `SecondaryStorage::Error`: the two error kinds surfaced to callers. -/
inductive Error where
  | error
  | timeout
  deriving DecidableEq

def REDIS_OK : Int := 0
def REDIS_ERR : Int := -1

/-- `REDIS_ERR_TIMEOUT`; the source guards its use by `#ifdef` (hiredis
is assumed to be version 1.0.0 or newer, where it is defined as 6). -/
def REDIS_ERR_TIMEOUT : Int := 6

def DEFAULT_CONNECT_TIMEOUT_MS : Nat := 100
def DEFAULT_OPERATION_TIMEOUT_MS : Nat := 10000
def DEFAULT_PORT : Nat := 6379

/-- A command sent over the wire, with its payload where the payload
matters to a server. -/
inductive Command where
  | authC
  | getC (key : String)
  | setC (key : String) (value : List Nat)
  | existsC (key : String)
  | delC (key : String)
  deriving DecidableEq

/-- One observable I/O action of the client: an in-place reconnect attempt
on an existing handle (`redisReconnect`), a fresh connection attempt
(`redisConnectWithTimeout` / `redisConnectUnixWithTimeout`), or a command
sent with `redisCommand`. -/
inductive IOEvent where
  | reconnectAttempt
  | freshConnectAttempt
  | cmd (c : Command)
  deriving DecidableEq

/-- The external world as seen by one `connect()` call: the outcome of a
`redisReconnect` on an existing handle, the context produced by a fresh
connection attempt (`none` models a NULL pointer), and the reply to the
`AUTH` command (`none` models a NULL reply).  `redisSetTimeout`'s result
is only logged by the code and affects no modelled state, so it is not
represented. -/
structure ConnectEnv where
  reconnect_ok : Bool
  fresh_context : Option RedisContext
  auth_reply : Option RedisReply
  deriving DecidableEq

/-- The external world as seen by one data operation: the environment for
the internal `connect()`, the reply to the `EXISTS` probe (used only by
`put` with `only_if_missing`), and the reply to the main command
(`GET` / `SET` / `DEL`). -/
structure OpEnv where
  cenv : ConnectEnv
  exists_reply : Option RedisReply
  reply : Option RedisReply
  deriving DecidableEq

/-- The state of one `RedisStorage` client instance (its member fields;
`m_pfx` embeds the source's `m_prefix`). -/
structure RedisStorage where
  m_url : Url
  m_pfx : String
  m_context : Option RedisContext
  m_connect_timeout : Nat
  m_operation_timeout : Nat
  m_username : Option String
  m_password : Option String
  m_connected : Bool
  m_invalid : Bool
  deriving DecidableEq

/-- Result of `connect()` / `auth()`: the updated client, the returned
`int` code, and the I/O performed. -/
structure ConnectOutcome where
  state : RedisStorage
  code : Int
  trace : List IOEvent
  deriving DecidableEq

/-- Result of a data operation: the updated client, the
`nonstd::expected` result, and the I/O performed. -/
structure OpOutcome (α : Type) where
  state : RedisStorage
  result : Except Error α
  trace : List IOEvent

/-- `Util::parse_unsigned(value, lo, hi, ...)`, restricted to the plain
decimal numerals the configuration uses; `none` models the exception
thrown on an out-of-range or unparsable value. -/
def parse_unsigned (value : String) (lo hi : Nat) : Option Nat :=
  match value.toNat? with
  | some n => if lo ≤ n ∧ n ≤ hi then some n else none
  | none => none

/-- `parse_timeout_attribute`: defaulted lookup of a timeout attribute,
parsed into [1 ms, 3 600 000 ms]. -/
def parse_timeout_attribute (attributes : List (String × String))
    (name : String) (default_value : Nat) : Option Nat :=
  match attributes.find? (fun p => p.fst == name) with
  | none => some default_value
  | some p => parse_unsigned p.snd 1 (1000 * 3600)

/-- `parse_string_attribute`: optional lookup of a string attribute. -/
def parse_string_attribute (attributes : List (String × String))
    (name : String) : Option String :=
  match attributes.find? (fun p => p.fst == name) with
  | none => none
  | some p => some p.snd

/-- The `RedisStorage` constructor: `none` models the exception a bad
timeout attribute raises out of `parse_timeout_attribute`. -/
def RedisStorage.construct (url : Url) (attributes : List (String × String)) :
    Option RedisStorage :=
  match parse_timeout_attribute attributes "connect-timeout"
          DEFAULT_CONNECT_TIMEOUT_MS,
        parse_timeout_attribute attributes "operation-timeout"
          DEFAULT_OPERATION_TIMEOUT_MS with
  | some ct, some ot =>
      some { m_url := url
             m_pfx := "ccache"
             m_context := none
             m_connect_timeout := ct
             m_operation_timeout := ot
             m_username := parse_string_attribute attributes "username"
             m_password := parse_string_attribute attributes "password"
             m_connected := false
             m_invalid := false }
  | _, _ => none

/-- `RedisStorage::auth()`.  With no password it is a no-op returning
`REDIS_OK`.  Otherwise it sends one `AUTH` command; a NULL reply or an
error-typed reply sets `m_invalid`, and the final `m_invalid` value
(which includes a pre-existing one, as in the source) selects the return
code.  (The username only selects the AUTH argument form and the log
text; neither affects the modelled state.) -/
def RedisStorage.auth (s : RedisStorage) (auth_reply : Option RedisReply) :
    ConnectOutcome :=
  match s.m_password with
  | none => { state := s, code := REDIS_OK, trace := [] }
  | some _ =>
      let s1 : RedisStorage :=
        match auth_reply with
        | none => { s with m_invalid := true }
        | some reply =>
            if reply.type = ReplyType.error then { s with m_invalid := true }
            else s
      { state := s1
        code := if s1.m_invalid then REDIS_ERR else REDIS_OK
        trace := [IOEvent.cmd Command.authC] }

/-- The fresh-connection tail of `RedisStorage::connect()` (from the
endpoint dispatch at line 119 on).  A URL with neither host nor socket
path is a configuration error that sets `m_invalid`.  Otherwise the
connection attempt's outcome comes from the environment: a NULL context
or a context with a nonzero `err` sets `m_invalid` (the latter returning
`m_context->err`); on success the client is marked connected, the
operation timeout is applied best-effort (failure only logged, so not
modelled), and `auth()` runs.  The port string feeds only the connection
attempt itself, and the `ASSERT` on the URL scheme is a debug assertion;
neither affects the modelled state. -/
def RedisStorage.connectFresh (s : RedisStorage) (env : ConnectEnv) :
    ConnectOutcome :=
  if s.m_url.host = "" ∧ s.m_url.path = "" then
    { state := { s with m_invalid := true }, code := REDIS_ERR, trace := [] }
  else
    match env.fresh_context with
    | none =>
        { state := { s with m_context := none, m_invalid := true }
          code := REDIS_ERR
          trace := [IOEvent.freshConnectAttempt] }
    | some ctx =>
        if ctx.err ≠ 0 then
          { state := { s with m_context := some ctx, m_invalid := true }
            code := ctx.err
            trace := [IOEvent.freshConnectAttempt] }
        else
          let s1 : RedisStorage :=
            { s with m_context := some ctx, m_connected := true }
          let a := s1.auth env.auth_reply
          { state := a.state
            code := a.code
            trace := IOEvent.freshConnectAttempt :: a.trace }

/-- `RedisStorage::connect()`.  Already connected: immediate `REDIS_OK`,
no I/O.  Already invalid: immediate `REDIS_ERR`, no I/O.  With an
existing handle, try an in-place `redisReconnect`: on success mark
connected and return `REDIS_OK`; on failure free the handle and fall
through to a fresh connection. -/
def RedisStorage.connect (s : RedisStorage) (env : ConnectEnv) :
    ConnectOutcome :=
  if s.m_connected then { state := s, code := REDIS_OK, trace := [] }
  else if s.m_invalid then { state := s, code := REDIS_ERR, trace := [] }
  else
    match s.m_context with
    | some _ =>
        if env.reconnect_ok then
          { state := { s with m_connected := true }
            code := REDIS_OK
            trace := [IOEvent.reconnectAttempt] }
        else
          let f := RedisStorage.connectFresh { s with m_context := none } env
          { state := f.state
            code := f.code
            trace := IOEvent.reconnectAttempt :: f.trace }
    | none => s.connectFresh env

/-- `is_error`: any code other than `REDIS_OK`. -/
def is_error (err : Int) : Bool :=
  err != REDIS_OK

/-- `is_timeout`: exactly `REDIS_ERR_TIMEOUT` (hiredis ≥ 1.0.0 branch of
the `#ifdef`). -/
def is_timeout (err : Int) : Bool :=
  err == REDIS_ERR_TIMEOUT

/-- `RedisStorage::get_key_string`: `FMT("{}:{}", m_prefix,
digest.to_string())`. -/
def RedisStorage.get_key_string (s : RedisStorage) (digest : Digest) :
    String :=
  s.m_pfx ++ ":" ++ digest.to_string

/-- `RedisStorage::get`.  Connect (timeout code ⇒ `Error::timeout`, other
failure ⇒ `Error::error`), then send `GET` on the namespaced key and
classify the reply: string ⇒ found with the raw bytes, nil ⇒ absent,
anything else (NULL reply, error reply, other type) ⇒ `Error::error`. -/
def RedisStorage.get (s : RedisStorage) (env : OpEnv) (key : Digest) :
    OpOutcome (Option (List Nat)) :=
  let c := s.connect env.cenv
  if is_timeout c.code then
    { state := c.state, result := Except.error Error.timeout, trace := c.trace }
  else if is_error c.code then
    { state := c.state, result := Except.error Error.error, trace := c.trace }
  else
    let key_string := c.state.get_key_string key
    let tr := c.trace ++ [IOEvent.cmd (Command.getC key_string)]
    match env.reply with
    | none =>
        { state := c.state, result := Except.error Error.error, trace := tr }
    | some reply =>
        if reply.type = ReplyType.error then
          { state := c.state, result := Except.error Error.error, trace := tr }
        else if reply.type = ReplyType.string then
          { state := c.state, result := Except.ok (some reply.str), trace := tr }
        else if reply.type = ReplyType.nil then
          { state := c.state, result := Except.ok none, trace := tr }
        else
          { state := c.state, result := Except.error Error.error, trace := tr }

/-- Narrowing of a C `long long` value into a 32-bit signed `int`
(two's-complement wrap-around), as performed by the assignment
`count = reply->integer` at `RedisStorage.cpp:273`, where `count` is
declared `int` but hiredis's `reply->integer` is `long long`. -/
def int32_of_long_long (n : Int) : Int :=
  (n + 2147483648) % 4294967296 - 2147483648

/-- `RedisStorage::put`.  Connect as in `get`.  With `only_if_missing`,
probe `EXISTS` first: the `int count` stays 0 unless the reply is
integer-typed, in which case the reply's `long long` integer is narrowed
into it, and `count > 0` returns `false` with no write.  Then send the
binary-safe `SET`; only a status-typed reply means stored (`true`); a
NULL reply, an error reply or any other type is `Error::error`. -/
def RedisStorage.put (s : RedisStorage) (env : OpEnv) (key : Digest)
    (value : List Nat) (only_if_missing : Bool) : OpOutcome Bool :=
  let c := s.connect env.cenv
  if is_timeout c.code then
    { state := c.state, result := Except.error Error.timeout, trace := c.trace }
  else if is_error c.code then
    { state := c.state, result := Except.error Error.error, trace := c.trace }
  else
    let key_string := c.state.get_key_string key
    let probe : List IOEvent × Bool :=
      if only_if_missing then
        let count : Int :=
          match env.exists_reply with
          | none => 0
          | some reply =>
              if reply.type = ReplyType.integer then
                int32_of_long_long reply.integer
              else 0
        ([IOEvent.cmd (Command.existsC key_string)], count > 0)
      else ([], false)
    if probe.snd then
      { state := c.state
        result := Except.ok false
        trace := c.trace ++ probe.fst }
    else
      let tr := c.trace ++ probe.fst
        ++ [IOEvent.cmd (Command.setC key_string value)]
      match env.reply with
      | none =>
          { state := c.state, result := Except.error Error.error, trace := tr }
      | some reply =>
          if reply.type = ReplyType.error then
            { state := c.state, result := Except.error Error.error, trace := tr }
          else if reply.type = ReplyType.status then
            { state := c.state, result := Except.ok true, trace := tr }
          else
            { state := c.state, result := Except.error Error.error, trace := tr }

/-- `RedisStorage::remove`.  Connect as in `get`, then send `DEL` and
classify: integer reply > 0 ⇒ removed (`true`); other integer reply ⇒
missing (`false`); NULL reply, error reply or any other type ⇒
`Error::error`. -/
def RedisStorage.remove (s : RedisStorage) (env : OpEnv) (key : Digest) :
    OpOutcome Bool :=
  let c := s.connect env.cenv
  if is_timeout c.code then
    { state := c.state, result := Except.error Error.timeout, trace := c.trace }
  else if is_error c.code then
    { state := c.state, result := Except.error Error.error, trace := c.trace }
  else
    let key_string := c.state.get_key_string key
    let tr := c.trace ++ [IOEvent.cmd (Command.delC key_string)]
    match env.reply with
    | none =>
        { state := c.state, result := Except.error Error.error, trace := tr }
    | some reply =>
        if reply.type = ReplyType.error then
          { state := c.state, result := Except.error Error.error, trace := tr }
        else if reply.type = ReplyType.integer then
          if reply.integer > 0 then
            { state := c.state, result := Except.ok true, trace := tr }
          else
            { state := c.state, result := Except.ok false, trace := tr }
        else
          { state := c.state, result := Except.error Error.error, trace := tr }

/-! ### An ideal Redis server

Used to state round-trip properties: a map from namespaced keys to byte
values, with the replies a well-behaved server gives to each command. -/

/-- The key-value state of an ideal server. -/
def Store : Type := String → Option (List Nat)

/-- Write one binding. -/
def Store.setKey (st : Store) (k : String) (v : List Nat) : Store :=
  fun q => if q = k then some v else st q

/-- The effect of one command on the server state. -/
def Store.applyCommand (st : Store) (c : Command) : Store :=
  match c with
  | Command.setC k v => st.setKey k v
  | Command.delC k => fun q => if q = k then none else st q
  | _ => st

/-- The effect of a client I/O trace on the server state (connection
events change nothing). -/
def Store.applyTrace (st : Store) (tr : List IOEvent) : Store :=
  tr.foldl
    (fun acc e =>
      match e with
      | IOEvent.cmd c => acc.applyCommand c
      | _ => acc)
    st

/-- The reply an ideal server gives to `GET k`: a string reply with the
stored bytes, or a nil reply when the key is absent. -/
def serverGetReply (st : Store) (k : String) : Option RedisReply :=
  match st k with
  | some v => some { type := ReplyType.string, str := v, integer := 0 }
  | none => some { type := ReplyType.nil, str := [], integer := 0 }

/-- The reply an ideal server gives to `EXISTS k`. -/
def serverExistsReply (st : Store) (k : String) : Option RedisReply :=
  match st k with
  | some _ => some { type := ReplyType.integer, str := [], integer := 1 }
  | none => some { type := ReplyType.integer, str := [], integer := 0 }

/-- The reply an ideal server gives to a successful `SET`. -/
def serverSetReply : Option RedisReply :=
  some { type := ReplyType.status, str := [], integer := 0 }

/-! ### Reachable client states -/

/-- The states a client instance can be in during its lifetime: freshly
constructed, or the state left behind by any data operation under any
environment. -/
inductive Reachable : RedisStorage → Prop where
  | init (url : Url) (attributes : List (String × String)) (s : RedisStorage)
      (h : RedisStorage.construct url attributes = some s) : Reachable s
  | stepGet (s : RedisStorage) (env : OpEnv) (key : Digest)
      (h : Reachable s) : Reachable (s.get env key).state
  | stepPut (s : RedisStorage) (env : OpEnv) (key : Digest)
      (value : List Nat) (only_if_missing : Bool) (h : Reachable s) :
      Reachable (s.put env key value only_if_missing).state
  | stepRemove (s : RedisStorage) (env : OpEnv) (key : Digest)
      (h : Reachable s) : Reachable (s.remove env key).state

/-! ### Helper lemmas -/

theorem is_timeout_ok : is_timeout REDIS_OK = false := rfl

theorem is_error_ok : is_error REDIS_OK = false := rfl

theorem is_timeout_err : is_timeout REDIS_ERR = false := rfl

theorem is_error_err : is_error REDIS_ERR = true := rfl

/-- A connected client's `connect()` is an immediate no-op success. -/
theorem connect_connected (s : RedisStorage) (env : ConnectEnv)
    (hc : s.m_connected = true) :
    s.connect env = ⟨s, REDIS_OK, []⟩ := by
  unfold RedisStorage.connect
  simp [hc]

/-- A disconnected invalid client's `connect()` is an immediate failure
with no I/O. -/
theorem connect_invalid (s : RedisStorage) (env : ConnectEnv)
    (hc : s.m_connected = false) (hi : s.m_invalid = true) :
    s.connect env = ⟨s, REDIS_ERR, []⟩ := by
  unfold RedisStorage.connect
  simp [hc, hi]

/-- Behaviour of `get` once the client is connected. -/
theorem get_connected (s : RedisStorage) (env : OpEnv) (key : Digest)
    (hc : s.m_connected = true) :
    s.get env key =
      { state := s
        result :=
          match env.reply with
          | none => Except.error Error.error
          | some reply =>
              if reply.type = ReplyType.error then Except.error Error.error
              else if reply.type = ReplyType.string then
                Except.ok (some reply.str)
              else if reply.type = ReplyType.nil then Except.ok none
              else Except.error Error.error
        trace := [IOEvent.cmd (Command.getC (s.get_key_string key))] } := by
  unfold RedisStorage.get
  rw [connect_connected s env.cenv hc]
  simp [is_timeout_ok, is_error_ok]
  cases env.reply <;> simp
  split <;> try rfl
  split <;> try rfl
  split <;> rfl

/-- The configuration fields (URL, key prefix string, timeouts and
credentials) of `t` agree with those of `s`. -/
def SameConfig (s t : RedisStorage) : Prop :=
  t.m_url = s.m_url ∧ t.m_pfx = s.m_pfx
  ∧ t.m_connect_timeout = s.m_connect_timeout
  ∧ t.m_operation_timeout = s.m_operation_timeout
  ∧ t.m_username = s.m_username ∧ t.m_password = s.m_password

theorem sameConfig_refl (s : RedisStorage) : SameConfig s s :=
  ⟨rfl, rfl, rfl, rfl, rfl, rfl⟩

/-- `auth()` touches only `m_invalid`. -/
theorem auth_preserves (s : RedisStorage) (r : Option RedisReply) :
    (s.auth r).state.m_context = s.m_context
    ∧ (s.auth r).state.m_connected = s.m_connected
    ∧ SameConfig s (s.auth r).state := by
  cases hp : s.m_password with
  | none => simp [RedisStorage.auth, hp, sameConfig_refl]
  | some pw =>
      cases r with
      | none => simp [RedisStorage.auth, hp, SameConfig]
      | some reply =>
          by_cases ht : reply.type = ReplyType.error <;>
            simp [RedisStorage.auth, hp, ht, SameConfig]

/-- `connectFresh` leaves the configuration fields unchanged. -/
theorem connectFresh_config (s : RedisStorage) (env : ConnectEnv) :
    SameConfig s (s.connectFresh env).state := by
  unfold RedisStorage.connectFresh
  split
  · exact ⟨rfl, rfl, rfl, rfl, rfl, rfl⟩
  · cases env.fresh_context with
    | none => exact ⟨rfl, rfl, rfl, rfl, rfl, rfl⟩
    | some ctx =>
        simp only
        split
        · exact ⟨rfl, rfl, rfl, rfl, rfl, rfl⟩
        · exact (auth_preserves _ env.auth_reply).2.2

/-- `connect()` leaves the configuration fields unchanged. -/
theorem connect_config (s : RedisStorage) (env : ConnectEnv) :
    SameConfig s (s.connect env).state := by
  unfold RedisStorage.connect
  split
  · exact sameConfig_refl s
  · split
    · exact sameConfig_refl s
    · split
      · split
        · exact ⟨rfl, rfl, rfl, rfl, rfl, rfl⟩
        · exact connectFresh_config _ env
      · exact connectFresh_config _ env

/-- A data operation's final state is exactly the state its internal
`connect()` produced; the command phase never mutates the client. -/
theorem get_state (s : RedisStorage) (env : OpEnv) (key : Digest) :
    (s.get env key).state = (s.connect env.cenv).state := by
  simp only [RedisStorage.get]
  repeat' split
  all_goals rfl

theorem put_state (s : RedisStorage) (env : OpEnv) (key : Digest)
    (value : List Nat) (only_if_missing : Bool) :
    (s.put env key value only_if_missing).state = (s.connect env.cenv).state := by
  simp only [RedisStorage.put]
  repeat' split
  all_goals rfl

theorem remove_state (s : RedisStorage) (env : OpEnv) (key : Digest) :
    (s.remove env key).state = (s.connect env.cenv).state := by
  simp only [RedisStorage.remove]
  repeat' split
  all_goals rfl

/-- `connect()` on an already-invalid client does not change the state. -/
theorem connect_state_invalid (s : RedisStorage) (env : ConnectEnv)
    (hi : s.m_invalid = true) : (s.connect env).state = s := by
  unfold RedisStorage.connect
  simp [hi]
  split <;> rfl

/-- Invariant of every reachable client state: a connection handle only
exists while the client is marked connected or invalid.  (Nothing ever
clears `m_connected`, so the handle of a dropped link never coexists with
a cleared flag.) -/
def ContextInv (s : RedisStorage) : Prop :=
  s.m_context ≠ none → s.m_connected = true ∨ s.m_invalid = true

/-- Every state `connectFresh` produces satisfies the handle invariant. -/
theorem connectFresh_inv (s : RedisStorage) (env : ConnectEnv) :
    ContextInv (s.connectFresh env).state := by
  unfold ContextInv RedisStorage.connectFresh
  split
  · exact fun _ => Or.inr rfl
  · split
    · exact fun _ => Or.inr rfl
    · split
      · exact fun _ => Or.inr rfl
      · exact fun _ => Or.inl (auth_preserves _ env.auth_reply).2.1

/-- `connect()` preserves the handle invariant. -/
theorem connect_inv (s : RedisStorage) (env : ConnectEnv)
    (h : ContextInv s) : ContextInv (s.connect env).state := by
  unfold RedisStorage.connect
  split
  · exact h
  · split
    · exact h
    · split
      · exfalso
        rename_i ctx hctx
        rcases h (by rw [hctx]; exact Option.some_ne_none _) with hh | hh <;>
          simp_all
      · exact connectFresh_inv s env

/-- Every reachable state satisfies the handle invariant. -/
theorem reachable_inv (s : RedisStorage) (h : Reachable s) : ContextInv s := by
  induction h with
  | init url attributes s0 hc =>
      unfold RedisStorage.construct at hc
      split at hc
      · injection hc with hs
        subst hs
        intro hx
        exact absurd rfl hx
      · cases hc
  | stepGet s env key h ih =>
      rw [get_state]
      exact connect_inv s env.cenv ih
  | stepPut s env key value oim h ih =>
      rw [put_state]
      exact connect_inv s env.cenv ih
  | stepRemove s env key h ih =>
      rw [remove_state]
      exact connect_inv s env.cenv ih

/-- Every reachable state carries the constant key prefix `"ccache"`. -/
theorem reachable_pfx (s : RedisStorage) (h : Reachable s) :
    s.m_pfx = "ccache" := by
  induction h with
  | init url attributes s0 hc =>
      unfold RedisStorage.construct at hc
      split at hc
      · injection hc with hs
        subst hs
        rfl
      · cases hc
  | stepGet s env key h ih =>
      rw [get_state]
      exact ((connect_config s env.cenv).2.1).trans ih
  | stepPut s env key value oim h ih =>
      rw [put_state]
      exact ((connect_config s env.cenv).2.1).trans ih
  | stepRemove s env key h ih =>
      rw [remove_state]
      exact ((connect_config s env.cenv).2.1).trans ih

/-- `auth()` never performs a reconnect attempt. -/
theorem auth_trace_no_reconnect (s : RedisStorage) (r : Option RedisReply) :
    IOEvent.reconnectAttempt ∉ (s.auth r).trace := by
  unfold RedisStorage.auth
  split
  · simp
  · simp

/-- `connectFresh` never performs a reconnect attempt. -/
theorem connectFresh_trace_no_reconnect (s : RedisStorage) (env : ConnectEnv) :
    IOEvent.reconnectAttempt ∉ (s.connectFresh env).trace := by
  unfold RedisStorage.connectFresh
  split
  · simp
  · split
    · simp
    · split
      · simp
      · simp [auth_trace_no_reconnect]

/-- Under the handle invariant, `connect()` never performs a reconnect
attempt. -/
theorem connect_trace_no_reconnect (s : RedisStorage) (env : ConnectEnv)
    (h : ContextInv s) : IOEvent.reconnectAttempt ∉ (s.connect env).trace := by
  unfold RedisStorage.connect
  split
  · simp
  · split
    · simp
    · split
      · exfalso
        rename_i ctx hctx
        rcases h (by rw [hctx]; exact Option.some_ne_none _) with hh | hh <;>
          simp_all
      · exact connectFresh_trace_no_reconnect s env

/-- The command phase of `get` adds only command events to the trace. -/
theorem get_trace_no_reconnect (s : RedisStorage) (env : OpEnv) (key : Digest)
    (h : IOEvent.reconnectAttempt ∉ (s.connect env.cenv).trace) :
    IOEvent.reconnectAttempt ∉ (s.get env key).trace := by
  simp only [RedisStorage.get]
  repeat' split
  all_goals simp_all

theorem put_trace_no_reconnect (s : RedisStorage) (env : OpEnv) (key : Digest)
    (value : List Nat) (only_if_missing : Bool)
    (h : IOEvent.reconnectAttempt ∉ (s.connect env.cenv).trace) :
    IOEvent.reconnectAttempt ∉ (s.put env key value only_if_missing).trace := by
  simp only [RedisStorage.put]
  repeat' split
  all_goals simp_all

theorem remove_trace_no_reconnect (s : RedisStorage) (env : OpEnv) (key : Digest)
    (h : IOEvent.reconnectAttempt ∉ (s.connect env.cenv).trace) :
    IOEvent.reconnectAttempt ∉ (s.remove env key).trace := by
  simp only [RedisStorage.remove]
  repeat' split
  all_goals simp_all

/-! ### Claim theorems -/

/-- Claim C5: for every key, `get` classifies the server's reply as
follows: a string-typed reply yields the value's raw bytes as a
successful found result; a nil-typed reply yields the successful absent
result (not an error); any other outcome — null reply, error-typed
reply, or a reply of any other type — yields a generic `Error`. -/
theorem C5_get_reply_classification (s : RedisStorage) (env : OpEnv)
    (key : Digest) (hc : s.m_connected = true) :
    (env.reply = none → (s.get env key).result = Except.error Error.error)
    ∧ (∀ reply, env.reply = some reply →
        ((reply.type = ReplyType.string →
            (s.get env key).result = Except.ok (some reply.str))
        ∧ (reply.type = ReplyType.nil →
            (s.get env key).result = Except.ok none)
        ∧ (reply.type = ReplyType.error →
            (s.get env key).result = Except.error Error.error)
        ∧ (reply.type ≠ ReplyType.string → reply.type ≠ ReplyType.nil →
            reply.type ≠ ReplyType.error →
            (s.get env key).result = Except.error Error.error))) := by
  rw [get_connected s env key hc]
  constructor
  · intro hr
    simp [hr]
  · intro reply hr
    refine ⟨?_, ?_, ?_, ?_⟩
    · intro ht
      cases hty : reply.type <;> simp_all [hr]
    · intro ht
      cases hty : reply.type <;> simp_all [hr]
    · intro ht
      simp [hr, ht]
    · intro h1 h2 h3
      simp [hr, h1, h2, h3]

/-- Witness for C5 at a concrete connected client and a concrete
string-typed reply carrying the bytes `[0, 255, 7]`. -/
theorem C5_get_reply_classification_witness :
    (RedisStorage.get
        { m_url := { scheme := "redis", host := "h", port := "", path := "" }
          m_pfx := "ccache", m_context := some { err := 0 }
          m_connect_timeout := 100, m_operation_timeout := 10000
          m_username := none, m_password := none
          m_connected := true, m_invalid := false }
        { cenv := { reconnect_ok := false, fresh_context := none,
                    auth_reply := none }
          exists_reply := none
          reply := some { type := ReplyType.string, str := [0, 255, 7],
                          integer := 0 } }
        { to_string := "d" }).result = Except.ok (some [0, 255, 7]) :=
  ((C5_get_reply_classification _ _ _ rfl).2 _ rfl).1 rfl

/-- Claim C8: for every key, `remove` classifies the deletion reply as
follows: an integer-typed reply with value > 0 yields the successful
removed result (`true`); an integer-typed reply with value 0 yields the
successful not-found result (`false`, not an error); any other outcome —
null reply, error-typed reply, or any other reply type — yields a
generic `Error`. -/
theorem C8_remove_reply_classification (s : RedisStorage) (env : OpEnv)
    (key : Digest) (hc : s.m_connected = true) :
    (env.reply = none → (s.remove env key).result = Except.error Error.error)
    ∧ (∀ reply, env.reply = some reply →
        ((reply.type = ReplyType.integer → reply.integer > 0 →
            (s.remove env key).result = Except.ok true)
        ∧ (reply.type = ReplyType.integer → reply.integer = 0 →
            (s.remove env key).result = Except.ok false)
        ∧ (reply.type = ReplyType.error →
            (s.remove env key).result = Except.error Error.error)
        ∧ (reply.type ≠ ReplyType.integer → reply.type ≠ ReplyType.error →
            (s.remove env key).result = Except.error Error.error))) := by
  have hcon := connect_connected s env.cenv hc
  constructor
  · intro hr
    simp [RedisStorage.remove, hcon, is_timeout_ok, is_error_ok, hr]
  · intro reply hr
    refine ⟨?_, ?_, ?_, ?_⟩
    · intro ht hgt
      simp [RedisStorage.remove, hcon, is_timeout_ok, is_error_ok, hr, ht, hgt]
    · intro ht hz
      simp [RedisStorage.remove, hcon, is_timeout_ok, is_error_ok, hr, ht, hz]
    · intro ht
      simp [RedisStorage.remove, hcon, is_timeout_ok, is_error_ok, hr, ht]
    · intro h1 h2
      simp [RedisStorage.remove, hcon, is_timeout_ok, is_error_ok, hr, h1, h2]

/-- Witness for C8 at a concrete connected client: an integer reply of 1
yields the removed result. -/
theorem C8_remove_reply_classification_witness :
    (RedisStorage.remove
        { m_url := { scheme := "redis", host := "h", port := "", path := "" }
          m_pfx := "ccache", m_context := some { err := 0 }
          m_connect_timeout := 100, m_operation_timeout := 10000
          m_username := none, m_password := none
          m_connected := true, m_invalid := false }
        { cenv := { reconnect_ok := false, fresh_context := none,
                    auth_reply := none }
          exists_reply := none
          reply := some { type := ReplyType.integer, str := [],
                          integer := 1 } }
        { to_string := "d" }).result = Except.ok true :=
  (((C8_remove_reply_classification _ _ _ rfl).2 _ rfl).1) rfl (by decide)

/-- Claim C4 (amended): for every key and value, `put` with
`only_if_missing=true` first issues an existence check on the namespaced
key; if the integer reply, after the source's narrowing of the
`long long` reply value into the 32-bit `int count`, is > 0, it returns
"not stored" (`false`) without writing; if the narrowed value is ≤ 0, or
the existence check yields no reply, an error-typed reply, or a
non-integer reply, it treats the key as absent and proceeds to issue the
write (fail-open on the check). -/
theorem C4_put_only_if_missing (s : RedisStorage) (env : OpEnv) (key : Digest)
    (value : List Nat) (hc : s.m_connected = true) :
    (∀ reply, env.exists_reply = some reply → reply.type = ReplyType.integer →
        int32_of_long_long reply.integer > 0 →
        s.put env key value true =
          ⟨s, Except.ok false,
           [IOEvent.cmd (Command.existsC (s.get_key_string key))]⟩)
    ∧ (∀ reply, env.exists_reply = some reply → reply.type = ReplyType.integer →
        int32_of_long_long reply.integer ≤ 0 →
        (s.put env key value true).trace =
          [IOEvent.cmd (Command.existsC (s.get_key_string key)),
           IOEvent.cmd (Command.setC (s.get_key_string key) value)])
    ∧ ((env.exists_reply = none
          ∨ (∃ reply, env.exists_reply = some reply
               ∧ reply.type ≠ ReplyType.integer)) →
        (s.put env key value true).trace =
          [IOEvent.cmd (Command.existsC (s.get_key_string key)),
           IOEvent.cmd (Command.setC (s.get_key_string key) value)]) := by
  have hcon := connect_connected s env.cenv hc
  refine ⟨?_, ?_, ?_⟩
  · intro reply hr ht hgt
    simp [RedisStorage.put, hcon, is_timeout_ok, is_error_ok, hr, ht, hgt]
  · intro reply hr ht hle
    simp only [RedisStorage.put, hcon, is_timeout_ok, is_error_ok, hr, ht]
    (repeat' split) <;> simp_all
    omega
  · intro hd
    rcases hd with hr | ⟨reply, hr, ht⟩
    · simp only [RedisStorage.put, hcon, is_timeout_ok, is_error_ok, hr]
      (repeat' split) <;> simp_all
    · simp only [RedisStorage.put, hcon, is_timeout_ok, is_error_ok, hr, ht]
      (repeat' split) <;> simp_all

/-- Witness for C4: a concrete connected client whose existence probe
answers 1 (which narrows to 1 > 0) does not store. -/
theorem C4_put_only_if_missing_witness :
    (RedisStorage.put
        { m_url := { scheme := "redis", host := "h", port := "", path := "" }
          m_pfx := "ccache", m_context := some { err := 0 }
          m_connect_timeout := 100, m_operation_timeout := 10000
          m_username := none, m_password := none
          m_connected := true, m_invalid := false }
        { cenv := { reconnect_ok := false, fresh_context := none,
                    auth_reply := none }
          exists_reply := some { type := ReplyType.integer, str := [],
                                 integer := 1 }
          reply := none }
        { to_string := "d" } [3, 4] true).result = Except.ok false := by
  rw [(C4_put_only_if_missing _ _ _ _ rfl).1 _ rfl rfl (by decide)]

/-- Counterexample to claim C4 as stated: an existence reply carrying the
integer 2^32 = 4294967296 is an "integer reply > 0", yet the narrowing
`int count = reply->integer` truncates it to 0, so `put` does not return
"not stored" — it proceeds to issue the write and, on a status reply,
reports stored (`true`). -/
theorem C4_counterexample :
    (RedisStorage.put
        { m_url := { scheme := "redis", host := "h", port := "", path := "" }
          m_pfx := "ccache", m_context := some { err := 0 }
          m_connect_timeout := 100, m_operation_timeout := 10000
          m_username := none, m_password := none
          m_connected := true, m_invalid := false }
        { cenv := { reconnect_ok := false, fresh_context := none,
                    auth_reply := none }
          exists_reply := some { type := ReplyType.integer, str := [],
                                 integer := 4294967296 }
          reply := some { type := ReplyType.status, str := [], integer := 0 } }
        { to_string := "d" } [3, 4] true).result = Except.ok true
    ∧ (RedisStorage.put
        { m_url := { scheme := "redis", host := "h", port := "", path := "" }
          m_pfx := "ccache", m_context := some { err := 0 }
          m_connect_timeout := 100, m_operation_timeout := 10000
          m_username := none, m_password := none
          m_connected := true, m_invalid := false }
        { cenv := { reconnect_ok := false, fresh_context := none,
                    auth_reply := none }
          exists_reply := some { type := ReplyType.integer, str := [],
                                 integer := 4294967296 }
          reply := some { type := ReplyType.status, str := [], integer := 0 } }
        { to_string := "d" } [3, 4] true).trace =
      [IOEvent.cmd (Command.existsC "ccache:d"),
       IOEvent.cmd (Command.setC "ccache:d" [3, 4])] := by
  exact ⟨rfl, rfl⟩

/-- Claim C6: in `get`, `put` and `remove`, a `connect()` failure whose
error code is classified as a timeout propagates as the `Timeout` error
variant, any other `connect()` failure propagates as the generic `Error`
variant, and `Timeout` is the only error kind surfaced to callers besides
the generic `Error`. -/
theorem C6_timeout_classification (s : RedisStorage) (env : OpEnv)
    (key : Digest) (value : List Nat) (oim : Bool) :
    (is_timeout (s.connect env.cenv).code = true →
        (s.get env key).result = Except.error Error.timeout
        ∧ (s.put env key value oim).result = Except.error Error.timeout
        ∧ (s.remove env key).result = Except.error Error.timeout)
    ∧ (is_error (s.connect env.cenv).code = true →
          is_timeout (s.connect env.cenv).code = false →
        (s.get env key).result = Except.error Error.error
        ∧ (s.put env key value oim).result = Except.error Error.error
        ∧ (s.remove env key).result = Except.error Error.error)
    ∧ (∀ e, ((s.get env key).result = Except.error e
          ∨ (s.put env key value oim).result = Except.error e
          ∨ (s.remove env key).result = Except.error e) →
        e = Error.timeout ∨ e = Error.error) := by
  refine ⟨?_, ?_, ?_⟩
  · intro ht
    refine ⟨?_, ?_, ?_⟩ <;>
      simp [RedisStorage.get, RedisStorage.put, RedisStorage.remove, ht]
  · intro he ht
    refine ⟨?_, ?_, ?_⟩ <;>
      simp [RedisStorage.get, RedisStorage.put, RedisStorage.remove, he, ht]
  · intro e _
    cases e
    · exact Or.inr rfl
    · exact Or.inl rfl

/-- Witness for C6: a concrete disconnected client whose fresh connection
attempt yields a context with `err = REDIS_ERR_TIMEOUT` surfaces
`Timeout` from `get`. -/
theorem C6_timeout_classification_witness :
    (RedisStorage.get
        { m_url := { scheme := "redis", host := "h", port := "", path := "" }
          m_pfx := "ccache", m_context := none
          m_connect_timeout := 100, m_operation_timeout := 10000
          m_username := none, m_password := none
          m_connected := false, m_invalid := false }
        { cenv := { reconnect_ok := false,
                    fresh_context := some { err := 6 },
                    auth_reply := none }
          exists_reply := none, reply := none }
        { to_string := "d" }).result = Except.error Error.timeout :=
  ((C6_timeout_classification _ _ _ [] false).1 (by decide)).1

/-- Claim C9: for every digest `d`, `get_key_string d` equals the string
`"ccache:"` followed by `d`'s canonical textual form; it is a pure,
total Lean function (no side effects, no failure mode), and the prefix
is the same constant for every reachable state of a client instance. -/
theorem C9_get_key_string (s : RedisStorage) (h : Reachable s) (d : Digest) :
    s.get_key_string d = "ccache:" ++ d.to_string := by
  unfold RedisStorage.get_key_string
  rw [reachable_pfx s h]
  rw [show ("ccache" ++ ":" : String) = "ccache:" from rfl]

/-- Witness for C9 at a freshly constructed client and the digest text
`"0123abc"`. -/
theorem C9_get_key_string_witness :
    RedisStorage.get_key_string
        { m_url := { scheme := "redis", host := "h", port := "", path := "" }
          m_pfx := "ccache", m_context := none
          m_connect_timeout := 100, m_operation_timeout := 10000
          m_username := none, m_password := none
          m_connected := false, m_invalid := false }
        { to_string := "0123abc" } = "ccache:" ++ "0123abc" :=
  C9_get_key_string _
    (Reachable.init { scheme := "redis", host := "h", port := "", path := "" }
      [] _ rfl)
    { to_string := "0123abc" }

/-- Claim C7: for every key `k` and every byte sequence `v` (including
sequences containing null and other non-text bytes), if `put(k, v,
false)` against an ideal server succeeds then a subsequent `get(k)` on
the server state that the put produced returns exactly `v`, byte for
byte. -/
theorem C7_put_get_roundtrip (s : RedisStorage) (st : Store) (key : Digest)
    (value : List Nat) (cenv : ConnectEnv) (er : Option RedisReply)
    (hc : s.m_connected = true) :
    (s.put ⟨cenv, er, serverSetReply⟩ key value false).result = Except.ok true
    ∧ ((s.put ⟨cenv, er, serverSetReply⟩ key value false).state.get
          ⟨cenv, er,
           serverGetReply
             (st.applyTrace
               (s.put ⟨cenv, er, serverSetReply⟩ key value false).trace)
             ((s.put ⟨cenv, er, serverSetReply⟩ key value false).state.get_key_string
               key)⟩
          key).result = Except.ok (some value) := by
  have hcon := connect_connected s cenv hc
  have hput :
      s.put ⟨cenv, er, serverSetReply⟩ key value false =
        ⟨s, Except.ok true,
         [IOEvent.cmd (Command.setC (s.get_key_string key) value)]⟩ := by
    simp [RedisStorage.put, hcon, is_timeout_ok, is_error_ok, serverSetReply]
  rw [hput]
  refine ⟨rfl, ?_⟩
  have hsg :
      serverGetReply
        (st.applyTrace
          [IOEvent.cmd (Command.setC (s.get_key_string key) value)])
        (s.get_key_string key) =
        some { type := ReplyType.string, str := value, integer := 0 } := by
    simp [Store.applyTrace, Store.applyCommand, Store.setKey, serverGetReply]
  rw [hsg, get_connected s _ key hc]
  simp

/-- Witness for C7 at a concrete connected client, the empty store, and
the binary value `[0, 1, 255]`. -/
theorem C7_put_get_roundtrip_witness :
    (RedisStorage.put
        { m_url := { scheme := "redis", host := "h", port := "", path := "" }
          m_pfx := "ccache", m_context := some { err := 0 }
          m_connect_timeout := 100, m_operation_timeout := 10000
          m_username := none, m_password := none
          m_connected := true, m_invalid := false }
        ⟨{ reconnect_ok := false, fresh_context := none, auth_reply := none },
         none, serverSetReply⟩
        { to_string := "d" } [0, 1, 255] false).result = Except.ok true :=
  (C7_put_get_roundtrip _ (fun _ => none) { to_string := "d" } [0, 1, 255]
    { reconnect_ok := false, fresh_context := none, auth_reply := none }
    none rfl).1

/-- Claim C10 (amended): each data operation's final state is exactly the
state its internal `connect()` call produced — the command-handling
phase modifies nothing, even on null or error replies — and the URL, key
prefix, timeouts and credentials are unchanged by the whole call; only
`connect()` (with its `auth()` step) ever changes the connected or
invalid flags. -/
theorem C10_frame (s : RedisStorage) (env : OpEnv) (key : Digest)
    (value : List Nat) (oim : Bool) :
    (s.get env key).state = (s.connect env.cenv).state
    ∧ (s.put env key value oim).state = (s.connect env.cenv).state
    ∧ (s.remove env key).state = (s.connect env.cenv).state
    ∧ SameConfig s (s.get env key).state
    ∧ SameConfig s (s.put env key value oim).state
    ∧ SameConfig s (s.remove env key).state := by
  refine ⟨get_state s env key, put_state s env key value oim,
    remove_state s env key, ?_, ?_, ?_⟩
  · rw [get_state]
    exact connect_config s env.cenv
  · rw [put_state]
    exact connect_config s env.cenv
  · rw [remove_state]
    exact connect_config s env.cenv

/-- Counterexample to claim C10 as stated: a `get` on a freshly
constructed (disconnected) client under a successful connection
environment flips `m_connected` from `false` to `true`, so the connected
flag is not the same after the call as before it. -/
theorem C10_counterexample :
    (RedisStorage.get
        { m_url := { scheme := "redis", host := "h", port := "", path := "" }
          m_pfx := "ccache", m_context := none
          m_connect_timeout := 100, m_operation_timeout := 10000
          m_username := none, m_password := none
          m_connected := false, m_invalid := false }
        { cenv := { reconnect_ok := false, fresh_context := some { err := 0 },
                    auth_reply := none }
          exists_reply := none
          reply := some { type := ReplyType.nil, str := [], integer := 0 } }
        { to_string := "d" }).state.m_connected = true
    ∧ ({ m_url := { scheme := "redis", host := "h", port := "", path := "" }
         m_pfx := "ccache", m_context := none
         m_connect_timeout := 100, m_operation_timeout := 10000
         m_username := none, m_password := none
         m_connected := false, m_invalid := false } :
           RedisStorage).m_connected = false :=
  ⟨rfl, rfl⟩

/-- Claim C1 (amended): once the invalid flag is set it stays set for
the client's lifetime; and whenever the invalid flag is set while the
client is not marked connected (which is how a malformed endpoint, a
null connection handle and a hard connection error leave it), every
subsequent `get`, `put` or `remove` fails immediately with the generic
`Error`, performing no I/O at all (empty trace: no connection attempt
and no command).  (After an authentication failure the client instead
stays marked connected, so later operations send commands on the
existing handle — see the counterexample.) -/
theorem C1_invalid_permanent_fail_fast (s : RedisStorage) (env : OpEnv)
    (key : Digest) (value : List Nat) (oim : Bool)
    (hinv : s.m_invalid = true) :
    (s.get env key).state.m_invalid = true
    ∧ (s.put env key value oim).state.m_invalid = true
    ∧ (s.remove env key).state.m_invalid = true
    ∧ (s.m_connected = false →
        s.get env key = ⟨s, Except.error Error.error, []⟩
        ∧ s.put env key value oim = ⟨s, Except.error Error.error, []⟩
        ∧ s.remove env key = ⟨s, Except.error Error.error, []⟩) := by
  have hst := connect_state_invalid s env.cenv hinv
  refine ⟨?_, ?_, ?_, ?_⟩
  · rw [get_state, hst]
    exact hinv
  · rw [put_state, hst]
    exact hinv
  · rw [remove_state, hst]
    exact hinv
  · intro hc
    have hcon := connect_invalid s env.cenv hc hinv
    refine ⟨?_, ?_, ?_⟩ <;>
      simp [RedisStorage.get, RedisStorage.put, RedisStorage.remove, hcon,
        is_timeout_err, is_error_err]

/-- Witness for C1 at a concrete disconnected invalid client: `get`
fails fast, returning the generic error without any I/O. -/
theorem C1_invalid_permanent_fail_fast_witness :
    RedisStorage.get
        { m_url := { scheme := "redis", host := "", port := "", path := "" }
          m_pfx := "ccache", m_context := none
          m_connect_timeout := 100, m_operation_timeout := 10000
          m_username := none, m_password := none
          m_connected := false, m_invalid := true }
        { cenv := { reconnect_ok := false, fresh_context := none,
                    auth_reply := none }
          exists_reply := none, reply := none }
        { to_string := "d" } =
      ⟨{ m_url := { scheme := "redis", host := "", port := "", path := "" }
         m_pfx := "ccache", m_context := none
         m_connect_timeout := 100, m_operation_timeout := 10000
         m_username := none, m_password := none
         m_connected := false, m_invalid := true },
       Except.error Error.error, []⟩ :=
  ((C1_invalid_permanent_fail_fast _ _ { to_string := "d" } [] false
    rfl).2.2.2 rfl).1

/-- The client of the C1 counterexample: constructed with a password,
then driven through one `get` whose fresh connect succeeds but whose
`AUTH` is rejected; this sets `m_invalid` while leaving `m_connected`
true. -/
def c1_after_auth_failure : RedisStorage :=
  (RedisStorage.get
    { m_url := { scheme := "redis", host := "h", port := "", path := "" }
      m_pfx := "ccache", m_context := none
      m_connect_timeout := 100, m_operation_timeout := 10000
      m_username := none, m_password := some "pw"
      m_connected := false, m_invalid := false }
    { cenv := { reconnect_ok := false, fresh_context := some { err := 0 }
                auth_reply := some { type := ReplyType.error, str := [],
                                     integer := 0 } }
      exists_reply := none, reply := none }
    { to_string := "d" }).state

/-- Counterexample to claim C1 as stated: the invalid flag set by an
authentication failure does not make subsequent operations fail fast —
the client is still marked connected, so the next `get` sends a `GET`
command (nonempty trace, i.e. new I/O) and can even return a value, not
a generic `Error`.  (The initial client below is exactly
`RedisStorage.construct` of a URL with host `"h"` and attribute list
`[("password", "pw")]`.) -/
theorem C1_counterexample :
    c1_after_auth_failure.m_invalid = true
    ∧ c1_after_auth_failure.m_connected = true
    ∧ (c1_after_auth_failure.get
        { cenv := { reconnect_ok := false, fresh_context := none,
                    auth_reply := none }
          exists_reply := none
          reply := some { type := ReplyType.string, str := [9, 0, 9],
                          integer := 0 } }
        { to_string := "d" }).result = Except.ok (some [9, 0, 9])
    ∧ (c1_after_auth_failure.get
        { cenv := { reconnect_ok := false, fresh_context := none,
                    auth_reply := none }
          exists_reply := none
          reply := some { type := ReplyType.string, str := [9, 0, 9],
                          integer := 0 } }
        { to_string := "d" }).trace ≠ [] := by
  refine ⟨rfl, rfl, rfl, ?_⟩
  decide

/-- Claim C2 (amended): when a password is configured and the
authentication step receives no reply or an error-typed reply, `auth`
marks the client `Invalid` and returns failure (`REDIS_ERR`), and the
invalid flag then stays set across every subsequent `get`/`put`/`remove`;
when no password is configured, `auth` is a no-op that returns success.
(The subsequent operations do not, however, all fail: the client stays
marked connected after the failed auth — see the counterexample.) -/
theorem C2_auth_failure_marks_invalid (s : RedisStorage)
    (r : Option RedisReply) (hp : s.m_password ≠ none)
    (hr : r = none
      ∨ ∃ reply, r = some reply ∧ reply.type = ReplyType.error) :
    ((s.auth r).state.m_invalid = true ∧ (s.auth r).code = REDIS_ERR)
    ∧ (∀ t : RedisStorage, t.m_password = none → ∀ r2,
        t.auth r2 = ⟨t, REDIS_OK, []⟩)
    ∧ (∀ t : RedisStorage, t.m_invalid = true →
        ∀ (env2 : OpEnv) (key2 : Digest) (value2 : List Nat) (oim2 : Bool),
        (t.get env2 key2).state.m_invalid = true
        ∧ (t.put env2 key2 value2 oim2).state.m_invalid = true
        ∧ (t.remove env2 key2).state.m_invalid = true) := by
  refine ⟨?_, ?_, ?_⟩
  · cases hp0 : s.m_password with
    | none => exact absurd hp0 hp
    | some pw =>
        rcases hr with hr | ⟨reply, hr, ht⟩
        · subst hr
          simp [RedisStorage.auth, hp0]
        · subst hr
          simp [RedisStorage.auth, hp0, ht]
  · intro t htp r2
    simp [RedisStorage.auth, htp]
  · intro t hti env2 key2 value2 oim2
    have hst := connect_state_invalid t env2.cenv hti
    refine ⟨?_, ?_, ?_⟩
    · rw [get_state, hst]
      exact hti
    · rw [put_state, hst]
      exact hti
    · rw [remove_state, hst]
      exact hti

/-- Witness for C2 at a concrete client with a configured password whose
`AUTH` gets no reply: `auth` marks it invalid. -/
theorem C2_auth_failure_marks_invalid_witness :
    (RedisStorage.auth
        { m_url := { scheme := "redis", host := "h", port := "", path := "" }
          m_pfx := "ccache", m_context := some { err := 0 }
          m_connect_timeout := 100, m_operation_timeout := 10000
          m_username := none, m_password := some "pw"
          m_connected := true, m_invalid := false }
        none).state.m_invalid = true :=
  ((C2_auth_failure_marks_invalid _ none (by decide) (Or.inl rfl)).1).1

/-- The client of the C2 counterexample: constructed with username and
password, then driven through one `put` whose fresh connect succeeds but
whose `AUTH` is rejected by the server. -/
def c2_after_auth_failure : RedisStorage :=
  (RedisStorage.put
    { m_url := { scheme := "redis", host := "h", port := "", path := "" }
      m_pfx := "ccache", m_context := none
      m_connect_timeout := 100, m_operation_timeout := 10000
      m_username := some "u", m_password := some "pw"
      m_connected := false, m_invalid := false }
    { cenv := { reconnect_ok := false, fresh_context := some { err := 0 }
                auth_reply := some { type := ReplyType.error, str := [],
                                     integer := 0 } }
      exists_reply := none, reply := none }
    { to_string := "e" } [1, 2] false).state

/-- Counterexample to claim C2 as stated: after the server rejects the
credentials the client is permanently invalid, yet a following `remove`
does not fail — the client is still marked connected, so the command is
sent and, on an integer reply of 1, succeeds with `true`. -/
theorem C2_counterexample :
    c2_after_auth_failure.m_invalid = true
    ∧ c2_after_auth_failure.m_connected = true
    ∧ (c2_after_auth_failure.remove
        { cenv := { reconnect_ok := false, fresh_context := none,
                    auth_reply := none }
          exists_reply := none
          reply := some { type := ReplyType.integer, str := [],
                          integer := 1 } }
        { to_string := "e" }).result = Except.ok true :=
  ⟨rfl, rfl, rfl⟩

/-- Claim C3 (amended): the code never detects a dropped link — no data
operation ever clears `m_connected`, a handle only exists in connected or
invalid states, and hence no reachable client ever performs an in-place
reconnect attempt during a data operation.  The in-place reconnect
branch of `connect()` itself does behave as the claim describes, but
only from the (unreachable) states that hold a handle while neither
connected nor invalid: a successful `redisReconnect` marks the client
connected and returns success, and a failed one discards the handle and
falls through to a fresh connection. -/
theorem C3_reconnect_branch_unreachable (s : RedisStorage)
    (h : Reachable s) :
    (∀ (env : OpEnv) (key : Digest) (value : List Nat) (oim : Bool),
        IOEvent.reconnectAttempt ∉ (s.get env key).trace
        ∧ IOEvent.reconnectAttempt ∉ (s.put env key value oim).trace
        ∧ IOEvent.reconnectAttempt ∉ (s.remove env key).trace)
    ∧ (∀ (t : RedisStorage) (env : ConnectEnv) (ctx : RedisContext),
        t.m_context = some ctx → t.m_connected = false →
        t.m_invalid = false →
        (env.reconnect_ok = true →
            t.connect env =
              ⟨{ t with m_connected := true }, REDIS_OK,
               [IOEvent.reconnectAttempt]⟩)
        ∧ (env.reconnect_ok = false →
            t.connect env =
              ⟨({ t with m_context := none }.connectFresh env).state,
               ({ t with m_context := none }.connectFresh env).code,
               IOEvent.reconnectAttempt ::
                 ({ t with m_context := none }.connectFresh env).trace⟩)) := by
  constructor
  · intro env key value oim
    have hinv := reachable_inv s h
    have hcn := connect_trace_no_reconnect s env.cenv hinv
    exact ⟨get_trace_no_reconnect s env key hcn,
           put_trace_no_reconnect s env key value oim hcn,
           remove_trace_no_reconnect s env key hcn⟩
  · intro t env ctx hctx hcf hif
    constructor
    · intro hro
      simp [RedisStorage.connect, hcf, hif, hctx, hro]
    · intro hro
      simp [RedisStorage.connect, hcf, hif, hctx, hro]

/-- Witness for C3 at a freshly constructed client: its first `get`
performs no reconnect attempt. -/
theorem C3_reconnect_branch_unreachable_witness :
    IOEvent.reconnectAttempt ∉
      (RedisStorage.get
        { m_url := { scheme := "redis", host := "h", port := "", path := "" }
          m_pfx := "ccache", m_context := none
          m_connect_timeout := 100, m_operation_timeout := 10000
          m_username := none, m_password := none
          m_connected := false, m_invalid := false }
        { cenv := { reconnect_ok := false, fresh_context := some { err := 0 }
                    auth_reply := none }
          exists_reply := none
          reply := some { type := ReplyType.nil, str := [], integer := 0 } }
        { to_string := "k1" }).trace :=
  ((C3_reconnect_branch_unreachable _
      (Reachable.init
        { scheme := "redis", host := "h", port := "", path := "" } [] _
        rfl)).1
    { cenv := { reconnect_ok := false, fresh_context := some { err := 0 }
                auth_reply := none }
      exists_reply := none
      reply := some { type := ReplyType.nil, str := [], integer := 0 } }
    { to_string := "k1" } [] false).1

/-- The client of the C3 counterexample: constructed without a password,
then connected by a first successful `get`; it is marked connected and
holds a live handle. -/
def c3_connected : RedisStorage :=
  (RedisStorage.get
    { m_url := { scheme := "redis", host := "h", port := "", path := "" }
      m_pfx := "ccache", m_context := none
      m_connect_timeout := 100, m_operation_timeout := 10000
      m_username := none, m_password := none
      m_connected := false, m_invalid := false }
    { cenv := { reconnect_ok := false, fresh_context := some { err := 0 }
                auth_reply := none }
      exists_reply := none
      reply := some { type := ReplyType.nil, str := [], integer := 0 } }
    { to_string := "k1" }).state

/-- Counterexample to claim C3 as stated: with the connected client and
an environment in which the transport is dead (any reconnect or fresh
connection would fail, and the `GET` obtains no reply — the way a
dropped link manifests), the next data operation performs no reconnect
attempt and no connection attempt at all: it just sends `GET` on the old
handle and reports a generic error.  No automatic reconnect is ever
triggered. -/
theorem C3_counterexample :
    c3_connected.m_connected = true
    ∧ (c3_connected.get
        { cenv := { reconnect_ok := false, fresh_context := none,
                    auth_reply := none }
          exists_reply := none, reply := none }
        { to_string := "k1" }).trace =
        [IOEvent.cmd (Command.getC "ccache:k1")]
    ∧ IOEvent.reconnectAttempt ∉
        (c3_connected.get
          { cenv := { reconnect_ok := false, fresh_context := none,
                      auth_reply := none }
            exists_reply := none, reply := none }
          { to_string := "k1" }).trace
    ∧ (c3_connected.get
        { cenv := { reconnect_ok := false, fresh_context := none,
                    auth_reply := none }
          exists_reply := none, reply := none }
        { to_string := "k1" }).result = Except.error Error.error := by
  refine ⟨rfl, rfl, ?_, rfl⟩
  decide

end CcacheRedis
